import Mathlib

/-!
Shallow embedding of the youtube-video-downloader scripts
(`debugger.py`, `downloader.py`, `anyvideodownload.py`).

The external extraction library (yt-dlp) is an injected collaborator:
stream descriptors are explicit records, per-strategy and per-URL download
attempts are Boolean-valued functions supplied as parameters, and the
output-template rendering performed inside the library is modelled from the
spec. Python integers are unbounded, so numeric fields are `Int`
(frame rates can be fractional in reality; the scripts only compare them,
so they are modelled as integers). A dictionary key that may be absent is
an `Option`.
-/

namespace YtDl

/-- Convenience empty-string default for `dict.get`-style lookups. -/
def dflt : String := ""

/-- A stream descriptor returned by the extraction collaborator's describe
operation (one entry of `info['formats']` in `debugger.py`). Only the keys
the scripts read are modelled; a missing key is `none`. yt-dlp uses the
literal string "none" for an absent codec. -/
structure Fmt where
  format_id : Option String
  ext : Option String
  vcodec : Option String
  acodec : Option String
  height : Option Int
  width : Option Int
  fps : Option Int
  abr : Option Int
  filesize : Option Int
deriving DecidableEq

/-- Python truthiness of an optional integer: `None` and `0` are falsy,
every other integer is truthy. -/
def truthyInt : Option Int → Bool
  | none => false
  | some n => n != 0

/-- debugger.py line 48: `f.get('vcodec') != 'none' and f.get('height')`. -/
def isVideoFmt (f : Fmt) : Bool :=
  (f.vcodec != some "none") && truthyInt f.height

/-- debugger.py line 50: `f.get('acodec') != 'none'`. -/
def isAudioFmt (f : Fmt) : Bool :=
  f.acodec != some "none"

/-- debugger.py lines 47-51: the classification loop that appends each
descriptor to `video_formats` (if-branch) or to `audio_formats`
(elif-branch), preserving input order; descriptors matching neither test
are dropped. -/
def splitFormats : List Fmt → List Fmt × List Fmt
  | [] => ([], [])
  | f :: fs =>
    if isVideoFmt f then (f :: (splitFormats fs).1, (splitFormats fs).2)
    else if isAudioFmt f then ((splitFormats fs).1, f :: (splitFormats fs).2)
    else splitFormats fs

/-- Sort key of debugger.py lines 54 and 82:
`(x.get('height', 0), x.get('fps', 0))`. -/
def sortKey (f : Fmt) : Int × Int :=
  (f.height.getD 0, f.fps.getD 0)

/-- Python tuple comparison `a <= b` on integer pairs (lexicographic). -/
def keyLe (a b : Int × Int) : Bool :=
  a.1 < b.1 || (a.1 == b.1 && a.2 ≤ b.2)

/-- Python tuple comparison `a < b` on integer pairs (lexicographic). -/
def keyLt (a b : Int × Int) : Bool :=
  a.1 < b.1 || (a.1 == b.1 && a.2 < b.2)

/-- The descending comparison used by
`video_formats.sort(key=..., reverse=True)`. -/
def vidLe (a b : Fmt) : Bool :=
  keyLe (sortKey b) (sortKey a)

/-- debugger.py line 54: stable in-place sort of the video descriptors,
descending in `sortKey`. -/
def sortVideoFormats (l : List Fmt) : List Fmt :=
  l.mergeSort vidLe

/-- debugger.py line 72:
`audio_formats.sort(key=lambda x: x.get('abr', 0), reverse=True)`. -/
def sortAudioFormats (l : List Fmt) : List Fmt :=
  l.mergeSort (fun a b => b.abr.getD 0 ≤ a.abr.getD 0)

/-- Python `max(l, key=key)`: the first element of `l` attaining the
maximal key (the running maximum is replaced only on a strictly greater
key), `none` on the empty list. -/
def pyMaxByKey (key : Fmt → Int × Int) : List Fmt → Option Fmt
  | [] => none
  | f :: fs => some (fs.foldl (fun acc x => if keyLt (key acc) (key x) then x else acc) f)

/-- The data flow of debugger.py `check_available_formats` (lines 44-84):
classify the descriptors, sort each class, display the top 10 video and
top 5 audio descriptors, and report
`max(video_formats, key=...) if video_formats else None` as the best video
descriptor (computed after the in-place sort). Printing is dropped;
returned are (displayed video rows, displayed audio rows, best video). -/
def check_available_formats (formats : List Fmt) : List Fmt × List Fmt × Option Fmt :=
  let videoSorted := sortVideoFormats (splitFormats formats).1
  let audioSorted := sortAudioFormats (splitFormats formats).2
  (videoSorted.take 10, audioSorted.take 5, pyMaxByKey sortKey videoSorted)

/-- debugger.py lines 103-112: the static `format_options` list, verbatim
and in source order. -/
def format_options : List String :=
  ["best",
   "bestvideo+bestaudio/best",
   "bestvideo[height>=1080]+bestaudio/bestvideo[height>=720]+bestaudio/best",
   "worst"]

/-- The for-loop of debugger.py lines 114-139: try each format-selector
string in order against the injected download collaborator; return success
on the first strategy that completes, otherwise log and continue. Returns
the overall result together with the list of strategies actually
attempted, in order. -/
def tryFormatStrategies (attempt : String → Bool) : List String → Bool × List String
  | [] => (false, [])
  | f :: fs =>
    if attempt f then (true, [f])
    else ((tryFormatStrategies attempt fs).1, f :: (tryFormatStrategies attempt fs).2)

/-- debugger.py `download_highest_quality` (lines 89-142): an optional
format check guarded by an interactive confirmation (modelled by the
`confirm` flag; declining returns Python `None`, i.e. `none`), then the
fallback loop over `format_options`. The collaborator `attempt` takes the
URL and the format-selector string. -/
def download_highest_quality (attempt : String → String → Bool) (url : String)
    (show_formats : Bool) (confirm : Bool) : Option (Bool × List String) :=
  if show_formats && !confirm then none
  else some (tryFormatStrategies (attempt url) format_options)

/-- downloader.py line 136:
`playlist_items = f"{start}:{end}" if end else f"{start}:"`.
The condition is Python truthiness of `end`: both `None` and `0` select
the open-ended form. -/
def playlist_items (start : Int) (stop : Option Int) : String :=
  if truthyInt stop then toString start ++ ":" ++ toString (stop.getD 0)
  else toString start ++ ":"

/-- downloader.py `download_multiple_videos` (lines 163-181), and the
identical loop of anyvideodownload.py (lines 117-137): sequentially
attempt each URL with the injected per-URL downloader (which itself
catches all download errors and returns a Boolean), incrementing
`success_count` on success; a failure leaves the counter unchanged and the
loop advances. Returns the URLs processed, in order, and `success_count`. -/
def download_multiple_videos (download : String → Bool) : List String → List String × Nat
  | [] => ([], 0)
  | u :: us =>
    ((u :: (download_multiple_videos download us).1),
     (if download u then 1 else 0) + (download_multiple_videos download us).2)

/-- The run summary printed at downloader.py line 181 and
anyvideodownload.py line 137: `success_count/len(urls)`. -/
def download_summary (download : String → Bool) (urls : List String) : Nat × Nat :=
  ((download_multiple_videos download urls).2, urls.length)

/-- One piece of a yt-dlp output template: literal text or a `%(name)s`
field reference. -/
inductive TmplPart where
  | lit : String → TmplPart
  | fieldRef : String → TmplPart
deriving DecidableEq

/-- Serialize a template back to the literal template string appearing in
the source, anchoring each modelled template to its source text. -/
def tmplText : List TmplPart → String
  | [] => ""
  | TmplPart.lit s :: ps => s ++ tmplText ps
  | TmplPart.fieldRef n :: ps => "%(" ++ n ++ ")s" ++ tmplText ps

/-- Modelled from the spec: the output-template rendering performed by the
external extraction library (not part of this repository) substitutes each
metadata field's value for its `%(name)s` placeholder (spec section 4,
output naming). -/
def renderTmpl (meta : String → String) : List TmplPart → String
  | [] => ""
  | TmplPart.lit s :: ps => s ++ renderTmpl meta ps
  | TmplPart.fieldRef n :: ps => meta n ++ renderTmpl meta ps

/-- POSIX `os.path.join(a, b)` for a relative second component: insert the
separator unless `a` is empty or already ends with it (CPython tests the
last character of `a`). -/
def ospath_join (a b : String) : String :=
  if a == "" then b
  else if a.toList.getLast? = some '/' then a ++ b
  else a ++ "/" ++ b

/-- anyvideodownload.py line 83: `'%(title)s [%(extractor)s].%(ext)s'`. -/
def any_single_outtmpl : List TmplPart :=
  [TmplPart.fieldRef "title", TmplPart.lit " [", TmplPart.fieldRef "extractor",
   TmplPart.lit "].", TmplPart.fieldRef "ext"]

/-- downloader.py line 28: `'%(title)s.%(ext)s'`. -/
def dl_single_outtmpl : List TmplPart :=
  [TmplPart.fieldRef "title", TmplPart.lit ".", TmplPart.fieldRef "ext"]

/-- downloader.py lines 72 and 140:
`'%(playlist_title)s/%(playlist_index)s - %(title)s.%(ext)s'`. -/
def dl_playlist_outtmpl : List TmplPart :=
  [TmplPart.fieldRef "playlist_title", TmplPart.lit "/",
   TmplPart.fieldRef "playlist_index", TmplPart.lit " - ",
   TmplPart.fieldRef "title", TmplPart.lit ".", TmplPart.fieldRef "ext"]

/-- debugger.py line 119: `'%(title)s [%(format_id)s].%(ext)s'`. -/
def dbg_outtmpl : List TmplPart :=
  [TmplPart.fieldRef "title", TmplPart.lit " [", TmplPart.fieldRef "format_id",
   TmplPart.lit "].", TmplPart.fieldRef "ext"]

/-- The produced output path: the output directory joined with the
rendered template (`os.path.join(output_path, outtmpl)` handed to the
library, whose rendering is `renderTmpl`). -/
def output_path (dir : String) (tmpl : List TmplPart) (meta : String → String) : String :=
  ospath_join dir (renderTmpl meta tmpl)

/-- Sublist-of-contiguous-run test on character lists, used to model
Python's `in` operator on strings. -/
def hasSublist (pat : List Char) : List Char → Bool
  | [] => pat.isEmpty
  | c :: cs => pat.isPrefixOf (c :: cs) || hasSublist pat cs

/-- Python `pat in s` on strings. -/
def strContains (s pat : String) : Bool :=
  hasSublist pat.toList s.toList

/-- downloader.py `detect_youtube_url_type` (lines 184-191). -/
def detect_youtube_url_type (url : String) : String :=
  if strContains url "playlist" || strContains url "list=" then "playlist"
  else "video"

/-- Outcome of one invocation of downloader.py `main`, one constructor per
dispatch branch. -/
inductive DlAct where
  | usage
  | playlistMissingUrl
  | playlistDl (url : String)
  | rangeMissingArgs
  | rangeParseError
  | rangeDl (url : String) (start : Int) (stop : Option Int)
  | singleDl (url : String)
  | playlistHint (url : String)
  | multiDl (urls : List String)
deriving DecidableEq

/-- downloader.py `main` (lines 194-262), as a dispatch on
`args = sys.argv[1:]` (so Python's `len(sys.argv) < k` is
`args.length < k - 1`). `confirmSingle` models the interactive
"Download as single video instead?" prompt; Python `int(...)` is modelled
by `String.toInt?`, a `ValueError` by the parse-error branch. -/
def downloader_main (args : List String) (confirmSingle : Bool) : DlAct :=
  if args.length == 0 then DlAct.usage
  else if args.contains "--playlist" then
    if args.length < 2 then DlAct.playlistMissingUrl
    else DlAct.playlistDl (args.getD 1 dflt)
  else if args.contains "--range" then
    if args.length < 4 then DlAct.rangeMissingArgs
    else
      match (args.getD 2 dflt).toInt? with
      | none => DlAct.rangeParseError
      | some s =>
        if args.getD 3 dflt == "end" then DlAct.rangeDl (args.getD 1 dflt) s none
        else
          match (args.getD 3 dflt).toInt? with
          | none => DlAct.rangeParseError
          | some e => DlAct.rangeDl (args.getD 1 dflt) s (some e)
  else
    if (args.filter (fun a => !(a.startsWith "--"))).length == 1 then
      if detect_youtube_url_type ((args.filter (fun a => !(a.startsWith "--"))).getD 0 dflt)
          == "playlist" then
        if confirmSingle then
          DlAct.singleDl ((args.filter (fun a => !(a.startsWith "--"))).getD 0 dflt)
        else DlAct.playlistHint ((args.filter (fun a => !(a.startsWith "--"))).getD 0 dflt)
      else DlAct.singleDl ((args.filter (fun a => !(a.startsWith "--"))).getD 0 dflt)
    else DlAct.multiDl (args.filter (fun a => !(a.startsWith "--")))

/-- Outcome of one invocation of anyvideodownload.py `main`. -/
inductive AnyAct where
  | usage
  | platforms
  | singleDl (url : String)
  | multiDl (urls : List String)
deriving DecidableEq

/-- anyvideodownload.py `main` (lines 140-173), as a dispatch on
`args = sys.argv[1:]`. -/
def anyvideodownload_main (args : List String) : AnyAct :=
  if args.length == 0 then AnyAct.usage
  else if args.contains "--platforms" then AnyAct.platforms
  else
    if (args.filter (fun a => !(a.startsWith "--"))).length == 1 then
      AnyAct.singleDl ((args.filter (fun a => !(a.startsWith "--"))).getD 0 dflt)
    else AnyAct.multiDl (args.filter (fun a => !(a.startsWith "--")))

/-- URLs on which a download is attempted, per downloader.py `main`
branch: the usage, missing-argument, parse-error and declined-prompt
branches return before any download. -/
def dlActDownloads : DlAct → List String
  | DlAct.playlistDl u => [u]
  | DlAct.rangeDl u _ _ => [u]
  | DlAct.singleDl u => [u]
  | DlAct.multiDl us => us
  | _ => []

/-- URLs on which a download is attempted, per anyvideodownload.py `main`
branch. -/
def anyActDownloads : AnyAct → List String
  | AnyAct.singleDl u => [u]
  | AnyAct.multiDl us => us
  | _ => []

/-- A demo video descriptor (1080p H.264, video-only). -/
def fmtVideoDemo : Fmt :=
  { format_id := some "137", ext := some "mp4", vcodec := some "avc1",
    acodec := some "none", height := some 1080, width := some 1920,
    fps := some 30, abr := none, filesize := none }

/-- A demo descriptor carrying both codecs but no height: the classifier
files it under the audio list. -/
def fmtAudioMisclassified : Fmt :=
  { format_id := some "18", ext := some "mp4", vcodec := some "avc1",
    acodec := some "mp4a", height := none, width := none,
    fps := none, abr := some 96, filesize := none }

/-- A demo descriptor with neither codec (a storyboard-style entry): it
lands in neither list. -/
def fmtNeither : Fmt :=
  { format_id := some "sb0", ext := some "mhtml", vcodec := some "none",
    acodec := some "none", height := none, width := none,
    fps := none, abr := none, filesize := none }

/-- Demo descriptor list for concrete evaluations. -/
def demoFormats : List Fmt :=
  [fmtAudioMisclassified, fmtVideoDemo, fmtNeither]

/-- Demo collaborator: fails the first strategy of `format_options`,
succeeds on the second. -/
def demoAttempt : String → Bool :=
  fun f => f == "bestvideo+bestaudio/best"

/-- Demo metadata lookup for a single-video request. -/
def fooMeta : String → String := fun n =>
  if n == "title" then "Foo"
  else if n == "ext" then "mp4"
  else if n == "extractor" then "YouTube"
  else dflt

/-- Demo metadata lookup for a playlist item at position 3 of playlist
"Bar". -/
def barMeta : String → String := fun n =>
  if n == "playlist_title" then "Bar"
  else if n == "playlist_index" then "3"
  else if n == "title" then "Baz"
  else if n == "ext" then "mp4"
  else dflt

/-! Helper lemmas about the lexicographic key comparisons. -/

theorem keyLe_refl (a : Int × Int) : keyLe a a = true := by
  simp [keyLe]

theorem keyLe_trans (a b c : Int × Int) (h1 : keyLe a b = true) (h2 : keyLe b c = true) :
    keyLe a c = true := by
  simp only [keyLe, Bool.or_eq_true, Bool.and_eq_true, decide_eq_true_eq, beq_iff_eq] at h1 h2 ⊢
  omega

theorem keyLe_total (a b : Int × Int) : (keyLe a b || keyLe b a) = true := by
  simp only [keyLe, Bool.or_eq_true, Bool.and_eq_true, decide_eq_true_eq, beq_iff_eq]
  omega

theorem keyLt_le (a b : Int × Int) (h : keyLt a b = true) : keyLe a b = true := by
  simp only [keyLt, keyLe, Bool.or_eq_true, Bool.and_eq_true, decide_eq_true_eq,
    beq_iff_eq] at h ⊢
  omega

theorem keyLt_false_le (a b : Int × Int) (h : keyLt a b = false) : keyLe b a = true := by
  simp only [keyLt, Bool.or_eq_false_iff, Bool.and_eq_false_iff] at h
  simp only [keyLe, Bool.or_eq_true, Bool.and_eq_true, decide_eq_true_eq, beq_iff_eq]
  rcases h with ⟨h1, h2⟩
  simp only [decide_eq_false_iff_not] at h1
  rcases h2 with h2 | h2
  · simp only [beq_eq_false_iff_ne] at h2
    omega
  · simp only [decide_eq_false_iff_not] at h2
    rcases eq_or_ne a.1 b.1 with he | he
    · omega
    · omega

theorem vidLe_trans (a b c : Fmt) (h1 : vidLe a b = true) (h2 : vidLe b c = true) :
    vidLe a c = true :=
  keyLe_trans _ _ _ h2 h1

theorem vidLe_total (a b : Fmt) : (vidLe a b || vidLe b a) = true :=
  keyLe_total (sortKey b) (sortKey a)

/-! Helper lemmas about the format classifier and the Python max. -/

theorem splitFormats_eq_filter (fs : List Fmt) :
    splitFormats fs
      = (fs.filter isVideoFmt, fs.filter (fun f => !isVideoFmt f && isAudioFmt f)) := by
  induction fs with
  | nil => rfl
  | cons g gs ih =>
    by_cases hv : isVideoFmt g = true
    · simp [splitFormats, hv, ih, List.filter_cons]
    · by_cases ha : isAudioFmt g = true
      · simp [splitFormats, hv, ha, ih, List.filter_cons]
      · simp [splitFormats, hv, ha, ih, List.filter_cons]

theorem pyMaxFold_spec (key : Fmt → Int × Int) (l : List Fmt) :
    ∀ a : Fmt,
      l.foldl (fun acc x => if keyLt (key acc) (key x) then x else acc) a ∈ a :: l ∧
      keyLe (key a) (key (l.foldl (fun acc x => if keyLt (key acc) (key x) then x else acc) a))
        = true ∧
      ∀ x ∈ l,
        keyLe (key x) (key (l.foldl (fun acc x => if keyLt (key acc) (key x) then x else acc) a))
          = true := by
  induction l with
  | nil =>
    intro a
    exact ⟨List.mem_singleton.mpr rfl, keyLe_refl _, by intro x hx; simp at hx⟩
  | cons y ys ih =>
    intro a
    simp only [List.foldl_cons]
    by_cases hlt : keyLt (key a) (key y) = true
    · rw [if_pos hlt]
      obtain ⟨hmem, hle, hall⟩ := ih y
      refine ⟨?_, ?_, ?_⟩
      · exact List.mem_cons_of_mem _ hmem
      · exact keyLe_trans _ _ _ (keyLt_le _ _ hlt) hle
      · intro x hx
        rcases List.mem_cons.mp hx with rfl | hx
        · exact hle
        · exact hall x hx
    · rw [if_neg hlt]
      obtain ⟨hmem, hle, hall⟩ := ih a
      refine ⟨?_, hle, ?_⟩
      · rcases List.mem_cons.mp hmem with h | h
        · exact List.mem_cons.mpr (Or.inl h)
        · exact List.mem_cons_of_mem _ (List.mem_cons_of_mem _ h)
      · intro x hx
        rcases List.mem_cons.mp hx with rfl | hx
        · exact keyLe_trans _ _ _ (keyLt_false_le _ _ (Bool.of_not_eq_true hlt)) hle
        · exact hall x hx

theorem pyMaxByKey_spec (key : Fmt → Int × Int) (l : List Fmt) (b : Fmt)
    (h : pyMaxByKey key l = some b) :
    b ∈ l ∧ ∀ f ∈ l, keyLe (key f) (key b) = true := by
  cases l with
  | nil => simp [pyMaxByKey] at h
  | cons f fs =>
    simp only [pyMaxByKey, Option.some.injEq] at h
    subst h
    obtain ⟨hmem, hle, hall⟩ := pyMaxFold_spec key fs f
    refine ⟨hmem, ?_⟩
    intro x hx
    rcases List.mem_cons.mp hx with rfl | hx
    · exact hle
    · exact hall x hx

/-! Helper lemmas about the fallback loop. -/

theorem tryStrategies_succeeds :
    ∀ (strategies : List String) (attempt : String → Bool) (k : Nat),
      k < strategies.length →
      (∀ j, j < k → attempt (strategies.getD j dflt) = false) →
      attempt (strategies.getD k dflt) = true →
      tryFormatStrategies attempt strategies = (true, strategies.take (k + 1))
  | [], _, k, hk, _, _ => by simp at hk
  | s :: rest, attempt, 0, _, _, hsucc => by
    have hs : attempt s = true := by simpa using hsucc
    simp [tryFormatStrategies, hs]
  | s :: rest, attempt, k + 1, hk, hfail, hsucc => by
    have h0 : attempt s = false := by simpa using hfail 0 (Nat.succ_pos k)
    have hrest := tryStrategies_succeeds rest attempt k (by simpa using hk)
      (fun j hj => by simpa using hfail (j + 1) (by omega)) (by simpa using hsucc)
    simp [tryFormatStrategies, h0, hrest]

theorem tryStrategies_all_fail :
    ∀ (strategies : List String) (attempt : String → Bool),
      (∀ f ∈ strategies, attempt f = false) →
      tryFormatStrategies attempt strategies = (false, strategies)
  | [], _, _ => rfl
  | s :: rest, attempt, h => by
    have h0 : attempt s = false := h s (List.mem_cons_self s rest)
    have hrest := tryStrategies_all_fail rest attempt
      (fun f hf => h f (List.mem_cons_of_mem s hf))
    simp [tryFormatStrategies, h0, hrest]

/-- Claim C1: for every URL-specific collaborator and every ordered list of
format strategies, the fallback loop of `download_highest_quality` stops at
the first strategy that succeeds: if strategies at positions 0..k-1 fail
and the one at position k succeeds, the loop returns success, the attempted
strategies are exactly the first k+1 of the list in order, and so exactly
k+1 attempts are made (at most the length of the list). -/
theorem fallback_first_success (attempt : String → Bool) (strategies : List String) (k : Nat)
    (hk : k < strategies.length)
    (hfail : ∀ j, j < k → attempt (strategies.getD j dflt) = false)
    (hsucc : attempt (strategies.getD k dflt) = true) :
    tryFormatStrategies attempt strategies = (true, strategies.take (k + 1)) ∧
    (tryFormatStrategies attempt strategies).2.length = k + 1 ∧
    (tryFormatStrategies attempt strategies).2.length ≤ strategies.length := by
  have h := tryStrategies_succeeds strategies attempt k hk hfail hsucc
  refine ⟨h, ?_, ?_⟩
  · rw [h]
    simp [List.length_take]
    omega
  · rw [h]
    simp [List.length_take]

/-- Witness for C1: with the demo collaborator, strategy 1 of
`format_options` fails and strategy 2 succeeds, so exactly 2 attempts are
made and the loop reports success. -/
theorem fallback_first_success_witness :
    tryFormatStrategies demoAttempt format_options = (true, format_options.take 2) ∧
    (tryFormatStrategies demoAttempt format_options).2.length = 2 ∧
    (tryFormatStrategies demoAttempt format_options).2.length ≤ format_options.length := by
  have h := fallback_first_success demoAttempt format_options 1 (by decide)
    (fun j hj => by
      have hj0 : j = 0 := by omega
      subst hj0
      decide)
    (by decide)
  simpa using h

/-- Claim C2: if the collaborator fails on every strategy,
`download_highest_quality` attempts every strategy of `format_options`
exactly once, in declared order, and returns failure; the same holds of
the underlying loop for an arbitrary strategy list. -/
theorem fallback_all_fail (attempt : String → String → Bool) (url : String)
    (h : ∀ f ∈ format_options, attempt url f = false) :
    download_highest_quality attempt url false true = some (false, format_options) ∧
    ∀ (strategies : List String) (a : String → Bool),
      (∀ f ∈ strategies, a f = false) →
      tryFormatStrategies a strategies = (false, strategies) := by
  constructor
  · simp [download_highest_quality, tryStrategies_all_fail format_options (attempt url) h]
  · intro strategies a ha
    exact tryStrategies_all_fail strategies a ha

/-- Witness for C2: the always-failing collaborator attempts all four
strategies in order and the overall result is failure. -/
theorem fallback_all_fail_witness :
    download_highest_quality (fun _ _ => false) "https://example.com/v" false true
      = some (false, format_options) :=
  (fallback_all_fail (fun _ _ => false) "https://example.com/v" (fun _ _ => rfl)).1

/-- Claim C3, counterexample: the first element of `format_options` is
"best" (the single best combined stream), not the strategy requesting
video of height >= 1080p; the >=1080p strategy sits at index 2. So the
list is not ordered as the claim states. -/
theorem format_options_counterexample :
    format_options.head? = some "best" ∧
    format_options[2]?
      = some "bestvideo[height>=1080]+bestaudio/bestvideo[height>=720]+bestaudio/best" ∧
    format_options.head?
      ≠ some "bestvideo[height>=1080]+bestaudio/bestvideo[height>=720]+bestaudio/best" := by
  refine ⟨rfl, rfl, ?_⟩
  decide

/-- Claim C3, amended: the static list has exactly four strategies, in
source order "best" (single best combined stream), then best video + best
audio, then the >=1080p-preferring strategy, and "worst" is the last
element (used only as last resort). -/
theorem format_options_actual_order :
    format_options
      = ["best",
         "bestvideo+bestaudio/best",
         "bestvideo[height>=1080]+bestaudio/bestvideo[height>=720]+bestaudio/best",
         "worst"] ∧
    format_options.getLast? = some "worst" :=
  ⟨rfl, rfl⟩

/-- Claim C4, counterexample: for `(start = 5, end = 0)` the end value is
given, yet the generated item-selection expression is the open-ended "5:",
not "5:0", because the code tests `end` for truthiness. -/
theorem playlist_items_zero_counterexample :
    playlist_items 5 (some 0) = "5:" ∧ playlist_items 5 (some 0) ≠ "5:0" := by
  constructor
  · decide
  · decide

/-- Claim C4, amended: `download_playlist_range` translates `(start, end)`
into "start:end" when `end` is given and nonzero, and into "start:" when
`end` is `None` (or zero); in particular `(5, 10)` yields "5:10" and
`(5, None)` yields "5:". -/
theorem playlist_items_amended (s e : Int) (he : e ≠ 0) :
    playlist_items s (some e) = toString s ++ ":" ++ toString e ∧
    playlist_items s none = toString s ++ ":" ∧
    playlist_items 5 (some 10) = "5:10" ∧
    playlist_items 5 none = "5:" := by
    refine ⟨?_, rfl, by decide, by decide⟩
    simp [playlist_items, truthyInt, he]

/-- Witness for the amended C4 at `(start, end) = (5, 10)`. -/
theorem playlist_items_amended_witness :
    playlist_items 5 (some 10) = toString (5 : Int) ++ ":" ++ toString (10 : Int) ∧
    playlist_items 5 none = toString (5 : Int) ++ ":" ∧
    playlist_items 5 (some 10) = "5:10" ∧
    playlist_items 5 none = "5:" :=
  playlist_items_amended 5 10 (by decide)

/-- Claim C9: for every start value, `end = 0` produces the open-ended
expression "start:" rather than "start:0", and is indistinguishable from
`end = None` at this interface. -/
theorem playlist_items_end_zero (s : Int) :
    playlist_items s (some 0) = toString s ++ ":" ∧
    playlist_items s (some 0) = playlist_items s none ∧
    playlist_items s (some 0) ≠ toString s ++ ":0" := by
  refine ⟨rfl, rfl, ?_⟩
  intro h
  have hL : playlist_items s (some 0) = toString s ++ ":" := rfl
  rw [hL] at h
  have h2 := congrArg String.length h
  rw [String.length_append, String.length_append] at h2
  have e1 : (":" : String).length = 1 := rfl
  have e2 : (":0" : String).length = 2 := rfl
  rw [e1, e2] at h2
  omega

/-- Claim C5: in `check_available_formats`, the displayed video
descriptors are non-increasing in the lexicographic (height, frame rate)
ordering, and any descriptor reported as "best" belongs to the video class
and is a maximum of the video descriptors under that same ordering. -/
theorem check_formats_sorted_best (formats : List Fmt) :
    List.Pairwise (fun a b : Fmt => keyLe (sortKey b) (sortKey a) = true)
      (check_available_formats formats).1 ∧
    ∀ b : Fmt, (check_available_formats formats).2.2 = some b →
      b ∈ (splitFormats formats).1 ∧
      ∀ f ∈ (splitFormats formats).1, keyLe (sortKey f) (sortKey b) = true := by
  constructor
  · have hs : ((splitFormats formats).1.mergeSort vidLe).Pairwise
        (fun a b : Fmt => vidLe a b = true) :=
      List.sorted_mergeSort vidLe_trans vidLe_total (splitFormats formats).1
    have hsub : List.Sublist (check_available_formats formats).1
        ((splitFormats formats).1.mergeSort vidLe) := by
      have h1 : (check_available_formats formats).1
          = ((splitFormats formats).1.mergeSort vidLe).take 10 := rfl
      rw [h1]
      exact List.take_sublist 10 _
    have := List.Pairwise.sublist hsub hs
    simpa [vidLe] using this
  · intro b hb
    have hb2 : pyMaxByKey sortKey ((splitFormats formats).1.mergeSort vidLe) = some b := hb
    obtain ⟨hmem, hall⟩ := pyMaxByKey_spec sortKey _ b hb2
    refine ⟨List.mem_mergeSort.mp hmem, ?_⟩
    intro f hf
    exact hall f (List.mem_mergeSort.mpr hf)

/-- Witness for C5 on the demo descriptor list, whose single video
descriptor is both displayed first and reported as best. -/
theorem check_formats_sorted_best_witness :
    List.Pairwise (fun a b : Fmt => keyLe (sortKey b) (sortKey a) = true)
      (check_available_formats demoFormats).1 ∧
    (fmtVideoDemo ∈ (splitFormats demoFormats).1 ∧
      ∀ f ∈ (splitFormats demoFormats).1, keyLe (sortKey f) (sortKey fmtVideoDemo) = true) := by
  refine ⟨(check_formats_sorted_best demoFormats).1,
    (check_formats_sorted_best demoFormats).2 fmtVideoDemo ?_⟩
  have hsplit : splitFormats demoFormats = ([fmtVideoDemo], [fmtAudioMisclassified]) := by
    decide
  have h1 : (check_available_formats demoFormats).2.2
      = pyMaxByKey sortKey (sortVideoFormats (splitFormats demoFormats).1) := rfl
  rw [h1, hsplit]
  show pyMaxByKey sortKey (sortVideoFormats [fmtVideoDemo]) = some fmtVideoDemo
  rw [sortVideoFormats, List.mergeSort_singleton]
  rfl

/-- Claim C6: for every collaborator outcome and every URL list,
`download_multiple_videos` processes the URLs sequentially in their given
order (a per-URL failure does not stop the loop), and the run summary
reports exactly S succeeded out of M total, where S counts the URLs on
which the collaborator succeeds and M is the number of URLs. -/
theorem multi_download_processes_all (download : String → Bool) (urls : List String) :
    (download_multiple_videos download urls).1 = urls ∧
    download_summary download urls = (urls.countP download, urls.length) := by
  have h : ∀ us : List String,
      (download_multiple_videos download us).1 = us ∧
      (download_multiple_videos download us).2 = us.countP download := by
    intro us
    induction us with
    | nil => simp [download_multiple_videos]
    | cons u t ih =>
      by_cases hd : download u = true
      · simp [download_multiple_videos, ih.1, ih.2, List.countP_cons, hd, Nat.add_comm]
      · simp only [Bool.not_eq_true] at hd
        simp [download_multiple_videos, ih.1, ih.2, List.countP_cons, hd]
  exact ⟨(h urls).1, by simp [download_summary, (h urls).2]⟩

/-- Claim C7, counterexample: downloader.py's single-video template is
`'%(title)s.%(ext)s'`; with title "Foo" and platform "YouTube" the
produced path is "./downloads/Foo.mp4", which does not contain the
source-platform identifier at all, contradicting the claim for that
single-video path. -/
theorem single_path_missing_platform :
    output_path "./downloads" dl_single_outtmpl fooMeta = "./downloads/Foo.mp4" ∧
    strContains (output_path "./downloads" dl_single_outtmpl fooMeta) "YouTube" = false ∧
    fooMeta "title" = "Foo" ∧ fooMeta "extractor" = "YouTube" := by
  refine ⟨by decide, by decide, rfl, rfl⟩

/-- Claim C7, amended: anyvideodownload.py's single-video path is the
output directory joined with a filename containing both the title and the
source-platform identifier fields, while downloader.py's single-video
filename contains only the title and extension; for every playlist
download, each item's path is nested under a subdirectory named after the
playlist title and its filename is prefixed with the item's 1-based
playlist position. -/
theorem output_path_templates (dir : String) (meta : String → String) :
    output_path dir any_single_outtmpl meta
      = ospath_join dir (meta "title" ++ " [" ++ meta "extractor" ++ "]." ++ meta "ext") ∧
    output_path dir dl_single_outtmpl meta
      = ospath_join dir (meta "title" ++ "." ++ meta "ext") ∧
    output_path dir dl_playlist_outtmpl meta
      = ospath_join dir (meta "playlist_title" ++ "/" ++ meta "playlist_index" ++ " - "
          ++ meta "title" ++ "." ++ meta "ext") ∧
    output_path "./downloads" any_single_outtmpl fooMeta = "./downloads/Foo [YouTube].mp4" ∧
    output_path "./downloads" dl_playlist_outtmpl barMeta = "./downloads/Bar/3 - Baz.mp4" ∧
    tmplText any_single_outtmpl = "%(title)s [%(extractor)s].%(ext)s" ∧
    tmplText dl_single_outtmpl = "%(title)s.%(ext)s" ∧
    tmplText dl_playlist_outtmpl = "%(playlist_title)s/%(playlist_index)s - %(title)s.%(ext)s" := by
  refine ⟨?_, ?_, ?_, by decide, by decide, by decide, by decide, by decide⟩
  · simp [output_path, renderTmpl, any_single_outtmpl, String.append_assoc]
  · simp [output_path, renderTmpl, dl_single_outtmpl, String.append_assoc]
  · simp [output_path, renderTmpl, dl_playlist_outtmpl, String.append_assoc]

/-- Claim C8: an invocation with no arguments makes both `main` functions
print usage and return without attempting any download; likewise the
missing-argument forms of `--playlist` and `--range` return without
downloading; and download errors are non-fatal at their boundary: a failed
URL still advances the multi-URL loop, and a failed strategy advances the
fallback loop to the remaining strategies. -/
theorem invalid_cli_no_download (args : List String) (confirm : Bool) (h : args = []) :
    downloader_main args confirm = DlAct.usage ∧
    dlActDownloads (downloader_main args confirm) = [] ∧
    anyvideodownload_main args = AnyAct.usage ∧
    anyActDownloads (anyvideodownload_main args) = [] ∧
    downloader_main ["--playlist"] confirm = DlAct.playlistMissingUrl ∧
    dlActDownloads DlAct.playlistMissingUrl = [] ∧
    downloader_main ["--range", "https://example.com/p", "5"] confirm = DlAct.rangeMissingArgs ∧
    dlActDownloads DlAct.rangeMissingArgs = [] ∧
    (∀ (download : String → Bool) (u : String) (rest : List String),
      (download_multiple_videos download (u :: rest)).1
        = u :: (download_multiple_videos download rest).1) ∧
    (∀ (attempt : String → Bool) (f : String) (rest : List String), attempt f = false →
      tryFormatStrategies attempt (f :: rest)
        = ((tryFormatStrategies attempt rest).1, f :: (tryFormatStrategies attempt rest).2)) := by
  subst h
  refine ⟨rfl, rfl, rfl, rfl, rfl, rfl, rfl, rfl, ?_, ?_⟩
  · intro download u rest
    simp [download_multiple_videos]
  · intro attempt f rest hf
    simp [tryFormatStrategies, hf]

/-- Witness for C8: the empty invocation of each script yields the usage
branch with no download attempted. -/
theorem invalid_cli_no_download_witness :
    downloader_main [] true = DlAct.usage ∧
    dlActDownloads (downloader_main [] true) = [] ∧
    anyvideodownload_main [] = AnyAct.usage ∧
    anyActDownloads (anyvideodownload_main []) = [] := by
  obtain ⟨h1, h2, h3, h4, _⟩ := invalid_cli_no_download [] true rfl
  exact ⟨h1, h2, h3, h4⟩

/-- Claim C10: the video/audio split of `check_available_formats` is not a
true partition: a descriptor carrying a real video codec but a missing or
zero height is classified as audio whenever it also carries a real audio
codec, and a descriptor with neither codec appears in neither list. -/
theorem split_formats_not_partition (fs : List Fmt) (f : Fmt) (hmem : f ∈ fs) :
    ((∃ v, f.vcodec = some v ∧ v ≠ "none") →
      (f.height = none ∨ f.height = some 0) →
      f.acodec ≠ some "none" →
      f ∈ (splitFormats fs).2 ∧ f ∉ (splitFormats fs).1) ∧
    (f.vcodec = some "none" → f.acodec = some "none" →
      f ∉ (splitFormats fs).1 ∧ f ∉ (splitFormats fs).2) := by
  rw [splitFormats_eq_filter]
  constructor
  · rintro ⟨v, hv, hvne⟩ hh ha
    have hvideo : isVideoFmt f = false := by
      rcases hh with h | h
      · simp [isVideoFmt, truthyInt, h]
      · simp [isVideoFmt, truthyInt, h]
    have haudio : isAudioFmt f = true := by
      simp [isAudioFmt]
      exact ha
    constructor
    · simp [List.mem_filter, hmem, hvideo, haudio]
    · simp [List.mem_filter, hvideo]
  · intro hv ha
    have hvideo : isVideoFmt f = false := by
      simp [isVideoFmt, hv]
    have haudio : isAudioFmt f = false := by
      simp [isAudioFmt, ha]
    constructor
    · simp [List.mem_filter, hvideo]
    · simp [List.mem_filter, hvideo, haudio]

/-- Witness for C10 on the demo descriptor list: the both-codec,
height-less descriptor lands in the audio list only, and the
codec-less descriptor lands in neither list. -/
theorem split_formats_not_partition_witness :
    (fmtAudioMisclassified ∈ (splitFormats demoFormats).2 ∧
      fmtAudioMisclassified ∉ (splitFormats demoFormats).1) ∧
    (fmtNeither ∉ (splitFormats demoFormats).1 ∧ fmtNeither ∉ (splitFormats demoFormats).2) := by
  constructor
  · exact (split_formats_not_partition demoFormats fmtAudioMisclassified (by decide)).1
      ⟨"avc1", rfl, by decide⟩ (Or.inl rfl) (by decide)
  · exact (split_formats_not_partition demoFormats fmtNeither (by decide)).2 rfl rfl

end YtDl
